import Mathlib

/-!
# Verification of the Mammoth recommender-designer graph core

Shallow embedding of the pipeline graph model of the Mammoth repository:
the component catalog and connection validator
(`src/apps/RecommenderDesigner/simplifiedComponents.ts`), the graph store
operations (`src/apps/RecommenderDesigner/RecommenderDesigner.tsx`), the
edge-attachment geometry (`components/Canvas.tsx`), the interactive
connection handler (`components/CanvasComponent.tsx`), and the workflow
loader (`src/services/apiService.ts`).
-/

namespace Mammoth

/-- Category of a catalog entry: `'input' | 'transform' | 'model' | 'output'`. -/
inductive Category where
  | input
  | transform
  | model
  | output
deriving DecidableEq, Repr

/-- One color scheme of `COLOR_PALETTE` in `simplifiedComponents.ts`. -/
structure ColorScheme where
  primary : String
  secondary : String
  gradient : String
  border : String
  text : String
deriving DecidableEq, Repr

/-- The `COLOR_PALETTE` record of `simplifiedComponents.ts`. -/
structure ColorPaletteT where
  input : ColorScheme
  transform : ColorScheme
  model : ColorScheme
  output : ColorScheme
deriving DecidableEq, Repr

/-- `COLOR_PALETTE` from `simplifiedComponents.ts`. -/
def COLOR_PALETTE : ColorPaletteT :=
  { input :=
      { primary := "#3B82F6"
        secondary := "#60A5FA"
        gradient := "linear-gradient(135deg, #3B82F6 0%, #60A5FA 100%)"
        border := "#2563EB"
        text := "#FFFFFF" }
    transform :=
      { primary := "#8B5CF6"
        secondary := "#A78BFA"
        gradient := "linear-gradient(135deg, #8B5CF6 0%, #A78BFA 100%)"
        border := "#7C3AED"
        text := "#FFFFFF" }
    model :=
      { primary := "#F59E0B"
        secondary := "#FBBF24"
        gradient := "linear-gradient(135deg, #F59E0B 0%, #FBBF24 100%)"
        border := "#D97706"
        text := "#000000" }
    output :=
      { primary := "#10B981"
        secondary := "#34D399"
        gradient := "linear-gradient(135deg, #10B981 0%, #34D399 100%)"
        border := "#059669"
        text := "#FFFFFF" } }

/-- `SimplifiedComponentDefinition` from `simplifiedComponents.ts`. -/
structure SimplifiedComponentDefinition where
  type : String
  label : String
  icon : String
  category : Category
  color : String
  description : String
  accepts : List String
  produces : String
deriving DecidableEq, Repr

/-- `SIMPLIFIED_COMPONENTS` from `simplifiedComponents.ts`: the shipped catalog. -/
def SIMPLIFIED_COMPONENTS : List SimplifiedComponentDefinition :=
  [ { type := "data-input"
      label := "Data Source"
      icon := "📊"
      category := .input
      color := COLOR_PALETTE.input.gradient
      description := "Load user-item interaction data (ratings, clicks, purchases)"
      accepts := []
      produces := "dataframe" },
    { type := "features-input"
      label := "Features"
      icon := "🏷️"
      category := .input
      color := COLOR_PALETTE.input.gradient
      description := "User/item metadata and features (demographics, content, etc.)"
      accepts := []
      produces := "features" },
    { type := "split"
      label := "Train/Test Split"
      icon := "✂️"
      category := .transform
      color := COLOR_PALETTE.transform.gradient
      description := "Split data into training and test sets"
      accepts := ["dataframe"]
      produces := "split-data" },
    { type := "preprocessor"
      label := "Preprocessor"
      icon := "🔧"
      category := .transform
      color := COLOR_PALETTE.transform.gradient
      description := "Clean, normalize, and transform data"
      accepts := ["dataframe", "features"]
      produces := "processed-data" },
    { type := "collaborative-filtering"
      label := "Collaborative Filter"
      icon := "🤝"
      category := .model
      color := COLOR_PALETTE.model.gradient
      description := "User-based or item-based collaborative filtering"
      accepts := ["split-data", "processed-data"]
      produces := "model" },
    { type := "matrix-factorization"
      label := "Matrix Factorization"
      icon := "🔢"
      category := .model
      color := COLOR_PALETTE.model.gradient
      description := "SVD, ALS, NMF - latent factor models"
      accepts := ["split-data", "processed-data"]
      produces := "model" },
    { type := "xgboost"
      label := "XGBoost"
      icon := "🚀"
      category := .model
      color := COLOR_PALETTE.model.gradient
      description := "Gradient boosting decision trees"
      accepts := ["split-data", "processed-data", "features"]
      produces := "model" },
    { type := "random-forest"
      label := "Random Forest"
      icon := "🌲"
      category := .model
      color := COLOR_PALETTE.model.gradient
      description := "Ensemble of decision trees"
      accepts := ["split-data", "processed-data", "features"]
      produces := "model" },
    { type := "deep-learning"
      label := "Neural Network"
      icon := "🧠"
      category := .model
      color := COLOR_PALETTE.model.gradient
      description := "Deep neural network models (NCF, DeepFM, etc.)"
      accepts := ["split-data", "processed-data", "features"]
      produces := "model" },
    { type := "predictions"
      label := "Predictions"
      icon := "🎯"
      category := .output
      color := COLOR_PALETTE.output.gradient
      description := "Generate top-K recommendations for users"
      accepts := ["model"]
      produces := "recommendations" },
    { type := "evaluation"
      label := "Evaluation"
      icon := "📈"
      category := .output
      color := COLOR_PALETTE.output.gradient
      description := "Evaluate model performance (RMSE, Precision, NDCG, etc.)"
      accepts := ["model"]
      produces := "metrics" } ]

/-- `isValidConnection` from `simplifiedComponents.ts`. -/
def isValidConnection (fromType toType : String) : Bool :=
  match SIMPLIFIED_COMPONENTS.find? (fun c => c.type == toType) with
  | none => false
  | some toComponent =>
    match SIMPLIFIED_COMPONENTS.find? (fun c => c.type == fromType) with
    | none => false
    | some fromComponent =>
      toComponent.accepts.contains fromComponent.produces ||
        toComponent.accepts.isEmpty

/-- `getSimplifiedComponent` from `simplifiedComponents.ts`. -/
def getSimplifiedComponent (type : String) : Option SimplifiedComponentDefinition :=
  SIMPLIFIED_COMPONENTS.find? (fun c => c.type == type)

/-- A workflow template of `EXAMPLE_WORKFLOWS`. -/
structure Workflow where
  name : String
  description : String
  blocks : List String
deriving DecidableEq, Repr

/-- `EXAMPLE_WORKFLOWS` from `simplifiedComponents.ts`. -/
def EXAMPLE_WORKFLOWS : List Workflow :=
  [ { name := "Simple Collaborative Filtering"
      description := "Basic user-based recommendation system"
      blocks := ["data-input", "split", "collaborative-filtering", "predictions", "evaluation"] },
    { name := "XGBoost with Features"
      description := "Gradient boosting with user/item features"
      blocks := ["data-input", "features-input", "split", "preprocessor", "xgboost",
                 "predictions", "evaluation"] },
    { name := "Matrix Factorization Pipeline"
      description := "SVD-based collaborative filtering"
      blocks := ["data-input", "split", "matrix-factorization", "predictions", "evaluation"] },
    { name := "Deep Learning Pipeline"
      description := "Neural network with metadata features"
      blocks := ["data-input", "features-input", "split", "preprocessor", "deep-learning",
                 "predictions", "evaluation"] },
    { name := "Model Comparison"
      description := "Compare multiple models on same data"
      blocks := ["data-input", "split", "xgboost", "random-forest", "collaborative-filtering",
                 "evaluation"] } ]

/-- `Position` from `types.ts` (canvas coordinates; every position the
designer ever stores is a whole number of canvas pixels, so the JS number
coordinates are modelled as integers). -/
structure Position where
  x : ℤ
  y : ℤ
deriving DecidableEq, Repr

/-- `ComponentData` from `types.ts`: a placed node.  The optional
`config?: Record<string, unknown>` mapping is modelled as an optional
association list. -/
structure ComponentData where
  id : String
  type : String
  position : Position
  label : String
  config : Option (List (String × String)) := none
deriving DecidableEq, Repr

/-- `Connection` from `types.ts`: a directed edge between node ids. -/
structure Connection where
  id : String
  «from» : String
  «to» : String
deriving DecidableEq, Repr

/-- The state held by the `RecommenderDesigner` component that the graph
operations touch: the node list, the edge list and the current selection. -/
structure GraphState where
  components : List ComponentData
  connections : List Connection
  selectedComponent : Option String
deriving DecidableEq, Repr

/-- The initial (empty) graph state. -/
def emptyState : GraphState :=
  { components := [], connections := [], selectedComponent := none }

/-- `addComponent` from `RecommenderDesigner.tsx`: appends the node. -/
def addComponent (component : ComponentData) (s : GraphState) : GraphState :=
  { s with components := s.components ++ [component] }

/-- `removeComponent` from `RecommenderDesigner.tsx`: filters out the node and
every connection touching it, and clears the selection if it pointed here. -/
def removeComponent (id : String) (s : GraphState) : GraphState :=
  { components := s.components.filter (fun comp => !(comp.id == id))
    connections := s.connections.filter (fun conn => !(conn.«from» == id) && !(conn.«to» == id))
    selectedComponent :=
      if s.selectedComponent = some id then none else s.selectedComponent }

/-- `addConnection` from `RecommenderDesigner.tsx`: deterministic id
`${from}-${to}`; no-op when a connection with that id already exists. -/
def addConnection (fromId toId : String) (s : GraphState) : GraphState :=
  let id := fromId ++ "-" ++ toId
  if s.connections.any (fun conn => conn.id == id) then s
  else { s with connections := s.connections ++ [{ id := id, «from» := fromId, «to» := toId }] }

/-- `removeConnection` from `RecommenderDesigner.tsx`. -/
def removeConnection (id : String) (s : GraphState) : GraphState :=
  { s with connections := s.connections.filter (fun conn => !(conn.id == id)) }

/-- `clearCanvas` from `RecommenderDesigner.tsx`. -/
def clearCanvas (_s : GraphState) : GraphState :=
  { components := [], connections := [], selectedComponent := none }

/-- The JSON document written by `handleSaveToFile` and read back by
`handleLoadFromFile` / the mount-time localStorage effect.  Fields are
optional because a loaded document may lack them (`data.components || []`).
`JSON.stringify` / `JSON.parse` of such plain data is modelled as the
identity on this structure. -/
structure GraphDocument where
  components : Option (List ComponentData)
  connections : Option (List Connection)
  version : Option String
  savedAt : Option String
deriving DecidableEq, Repr

/-- `handleSaveToFile` from `RecommenderDesigner.tsx`: the document it
serializes (the surrounding blob/anchor plumbing is I/O glue). -/
def handleSaveToFile (s : GraphState) (savedAt : String) : GraphDocument :=
  { components := some s.components
    connections := some s.connections
    version := some "1.0"
    savedAt := some savedAt }

/-- `handleLoadFromFile` from `RecommenderDesigner.tsx`, reader `onload`
callback.  The `JSON.parse` outcome is the `Except` argument: on success the
state is replaced by `data.components || []` / `data.connections || []`; on a
parse error the handler alerts (the returned `Bool`) and leaves the state
untouched. -/
def handleLoadFromFile (s : GraphState) (parsed : Except String GraphDocument) :
    GraphState × Bool :=
  match parsed with
  | .ok data =>
    ({ s with components := data.components.getD []
              connections := data.connections.getD [] }, false)
  | .error _ => (s, true)

/-- The mount-time load effect of `RecommenderDesigner.tsx`: starting from the
initial empty state, a present and parseable localStorage value replaces the
state; a missing key or a parse error leaves the initial empty state (the
error is only logged, no alert). -/
def mountLoadEffect (saved : Option (Except String GraphDocument)) : GraphState :=
  match saved with
  | some (.ok data) =>
    { emptyState with components := data.components.getD []
                      connections := data.connections.getD [] }
  | some (.error _) => emptyState
  | none => emptyState

/-- `handleConnectionPointClick` from `components/CanvasComponent.tsx`
(the `handleContextMenu` right-click path has the same connection logic).
Returns the updated graph state and the new `connectingFrom` value. -/
def handleConnectionPointClick (connectingFrom : Option String)
    (component : ComponentData) (allComponents : List ComponentData)
    (s : GraphState) : GraphState × Option String :=
  match connectingFrom with
  | none => (s, some component.id)
  | some f =>
    if f == component.id then (s, none)
    else
      match allComponents.find? (fun c => c.id == f) with
      | some fromComp =>
        if isValidConnection fromComp.type component.type then
          (addConnection f component.id s, none)
        else (s, none)
      | none => (s, none)

/-- Loop body of `handleLoadWorkflow` from `src/services/apiService.ts`
(`workflow.blocks.forEach((blockType, index) => ...)`).  `index` is the
position in the original template, `counter` is `componentCounter.current`.
JS `newComponents[index - 1]` being `undefined` (and the ensuing
`prevComponent.id` TypeError) is modelled by returning `none`. -/
def loadWorkflowGo (blocks : List String) (index counter : Nat)
    (newComponents : List ComponentData) (newConnections : List Connection) :
    Option (List ComponentData × List Connection × Nat) :=
  match blocks with
  | [] => some (newComponents, newConnections, counter)
  | blockType :: rest =>
    match getSimplifiedComponent blockType with
    | none => loadWorkflowGo rest (index + 1) counter newComponents newConnections
    | some componentDef =>
      let counter' := counter + 1
      let row := index / 4
      let col := index % 4
      let x : ℤ := 100 + col * 220
      let y : ℤ := 100 + row * 140
      let newComponent : ComponentData :=
        { id := "component-" ++ toString counter'
          type := blockType
          position := { x := x, y := y }
          label := componentDef.label
          config := none }
      let comps := newComponents ++ [newComponent]
      if index > 0 then
        match comps[index - 1]? with
        | none => none
        | some prevComponent =>
          loadWorkflowGo rest (index + 1) counter' comps
            (newConnections ++
              [{ id := prevComponent.id ++ "-" ++ newComponent.id
                 «from» := prevComponent.id
                 «to» := newComponent.id }])
      else
        loadWorkflowGo rest (index + 1) counter' comps newConnections

/-- `handleLoadWorkflow` from `src/services/apiService.ts`: expands a
template's block list into fresh components and chain connections.  `counter0`
is the value of the persistent `componentCounter` ref before the call; the
result also carries its final value. -/
def handleLoadWorkflow (blocks : List String) (counter0 : Nat) :
    Option (List ComponentData × List Connection × Nat) :=
  loadWorkflowGo blocks 0 counter0 [] []

/-- `COMPONENT_WIDTH` from `components/Canvas.tsx`. -/
def COMPONENT_WIDTH : ℝ := 188

/-- `COMPONENT_HEIGHT` from `components/Canvas.tsx`. -/
def COMPONENT_HEIGHT : ℝ := 118

/-- A point `{x, y}` as returned by `getConnectionPoint`. -/
structure Point where
  x : ℝ
  y : ℝ

/-- JS `Math.atan2(y, x)`: the angle of `(x, y)` in `(-π, π]`, with
`atan2(0, 0) = 0`. -/
noncomputable def atan2 (y x : ℝ) : ℝ :=
  if 0 < x then Real.arctan (y / x)
  else if x < 0 then
    (if 0 ≤ y then Real.arctan (y / x) + Real.pi else Real.arctan (y / x) - Real.pi)
  else if 0 < y then Real.pi / 2
  else if y < 0 then -(Real.pi / 2)
  else 0

/-- JS `a % b` on real operands (`fmod`, truncated division).  In
`getConnectionPoint` it is only applied with `a ≥ 0` and `b = 360`. -/
noncomputable def jsMod (a b : ℝ) : ℝ :=
  a - b * (if 0 ≤ a / b then ((⌊a / b⌋ : ℤ) : ℝ) else ((⌈a / b⌉ : ℤ) : ℝ))

/-- `getConnectionPoint` from `components/Canvas.tsx`: the edge-attachment
point on the source (`isSource = true`) or target node, chosen by bucketing
the center-to-center angle into four 90° sectors. -/
noncomputable def getConnectionPoint (fromComp toComp : ComponentData)
    (isSource : Bool) : Point :=
  let fromCenterX : ℝ := (fromComp.position.x : ℝ) + COMPONENT_WIDTH / 2
  let fromCenterY : ℝ := (fromComp.position.y : ℝ) + COMPONENT_HEIGHT / 2
  let toCenterX : ℝ := (toComp.position.x : ℝ) + COMPONENT_WIDTH / 2
  let toCenterY : ℝ := (toComp.position.y : ℝ) + COMPONENT_HEIGHT / 2
  let dx := toCenterX - fromCenterX
  let dy := toCenterY - fromCenterY
  let angle := atan2 dy dx
  let component := if isSource then fromComp else toComp
  let baseX : ℝ := (component.position.x : ℝ)
  let baseY : ℝ := (component.position.y : ℝ)
  let degrees := jsMod (angle * 180 / Real.pi + 360) 360
  let adjustedDegrees := if isSource then degrees else jsMod (degrees + 180) 360
  if 315 ≤ adjustedDegrees ∨ adjustedDegrees < 45 then
    { x := baseX + COMPONENT_WIDTH, y := baseY + COMPONENT_HEIGHT / 2 }
  else if 45 ≤ adjustedDegrees ∧ adjustedDegrees < 135 then
    { x := baseX + COMPONENT_WIDTH / 2, y := baseY + COMPONENT_HEIGHT }
  else if 135 ≤ adjustedDegrees ∧ adjustedDegrees < 225 then
    { x := baseX, y := baseY + COMPONENT_HEIGHT / 2 }
  else
    { x := baseX + COMPONENT_WIDTH / 2, y := baseY }

/-! ## Concrete fixtures used by the theorems -/

/-- The five-block template of example scenario 3: block #3 (index 2) has an
unresolvable type. -/
def blocksBroken : List String :=
  ["data-input", "split", "bad-type", "predictions", "evaluation"]

/-- The block list of the shipped `XGBoost with Features` workflow. -/
def xgbBlocks : List String :=
  (((EXAMPLE_WORKFLOWS.find? (fun w => w.name == "XGBoost with Features")).map
    Workflow.blocks).getD [])

/-- The result of loading the `XGBoost with Features` workflow on a fresh
counter. -/
def xgbLoaded : List ComponentData × List Connection × Nat :=
  (handleLoadWorkflow xgbBlocks 0).getD ([], [], 0)

/-- A graph state holding two connections with the same id `A-B`
(obtainable in the running system by loading a file whose `connections`
array repeats an entry). -/
def dupConnState : GraphState :=
  { components := []
    connections :=
      [ { id := "A-B", «from» := "A", «to» := "B" },
        { id := "A-B", «from» := "A", «to» := "B" } ]
    selectedComponent := none }

/-- A placed `data-input` node used in concrete scenarios. -/
def wn1 : ComponentData :=
  { id := "n1", type := "data-input", position := { x := 0, y := 0 }
    label := "Data Source", config := none }

/-- A placed `split` node used in concrete scenarios. -/
def wn2 : ComponentData :=
  { id := "n2", type := "split", position := { x := 200, y := 0 }
    label := "Train/Test Split", config := none }

/-- A non-empty graph state (one placed node). -/
def nonEmptyState : GraphState :=
  { components := [wn1], connections := [], selectedComponent := none }

/-! ## Helper lemmas -/

/-- The eleven catalog entries have pairwise distinct `type` identifiers. -/
theorem catalog_types_nodup :
    (SIMPLIFIED_COMPONENTS.map (fun c => c.type)).Nodup := by decide

/-- When the connection id `fromId ++ "-" ++ toId` is already present,
`addConnection` is a no-op. -/
theorem addConnection_noop (t : GraphState) (fromId toId : String)
    (h : t.connections.any (fun conn => conn.id == fromId ++ "-" ++ toId) = true) :
    addConnection fromId toId t = t := by
  unfold addConnection
  simp only [h, if_true]

/-- When the connection id `fromId ++ "-" ++ toId` is absent, `addConnection`
appends the new connection at the end. -/
theorem addConnection_append (t : GraphState) (fromId toId : String)
    (h : t.connections.any (fun conn => conn.id == fromId ++ "-" ++ toId) = false) :
    (addConnection fromId toId t).connections =
      t.connections ++ [{ id := fromId ++ "-" ++ toId, «from» := fromId, «to» := toId }] := by
  unfold addConnection
  simp only [h, Bool.false_eq_true, if_false]

/-- Connection ids of a graph state are pairwise distinct. -/
def connectionIdsNodup (s : GraphState) : Prop :=
  (s.connections.map (fun conn => conn.id)).Nodup

/-- Node `n1` of example scenario 2, at position `(100, 100)`. -/
def geoN1 : ComponentData :=
  { id := "n1", type := "data-input", position := { x := 100, y := 100 }
    label := "Data Source", config := none }

/-- Node `n2` of example scenario 2, at position `(300, 100)`. -/
def geoN2 : ComponentData :=
  { id := "n2", type := "split", position := { x := 300, y := 100 }
    label := "Train/Test Split", config := none }

/-! ## Claim theorems -/

/-- Claim C1: `isValidConnection(fromTypeId, toTypeId)` returns `true` exactly
when both identifiers resolve to catalog entries and either the resolved
target's `accepts` list contains the resolved source's `produces` tag or that
`accepts` list is empty; unresolved identifiers yield `false` (the function is
total, so no exception can occur). -/
theorem isValidConnection_characterization (fromTypeId toTypeId : String) :
    isValidConnection fromTypeId toTypeId = true ↔
      ∃ toComponent ∈ SIMPLIFIED_COMPONENTS, toComponent.type = toTypeId ∧
        ∃ fromComponent ∈ SIMPLIFIED_COMPONENTS, fromComponent.type = fromTypeId ∧
          (fromComponent.produces ∈ toComponent.accepts ∨ toComponent.accepts = []) := by
  have hinj : ∀ x ∈ SIMPLIFIED_COMPONENTS, ∀ y ∈ SIMPLIFIED_COMPONENTS,
      x.type = y.type → x = y :=
    List.inj_on_of_nodup_map catalog_types_nodup
  unfold isValidConnection
  constructor
  · intro h
    cases hto : SIMPLIFIED_COMPONENTS.find? (fun c => c.type == toTypeId) with
    | none => rw [hto] at h; exact absurd h (by simp)
    | some toComponent =>
      rw [hto] at h
      cases hfrom : SIMPLIFIED_COMPONENTS.find? (fun c => c.type == fromTypeId) with
      | none => rw [hfrom] at h; exact absurd h (by simp)
      | some fromComponent =>
        rw [hfrom] at h
        refine ⟨toComponent, List.mem_of_find?_eq_some hto, ?_,
          fromComponent, List.mem_of_find?_eq_some hfrom, ?_, ?_⟩
        · have := List.find?_some hto
          simpa using this
        · have := List.find?_some hfrom
          simpa using this
        · rcases Bool.or_eq_true_iff.mp h with h' | h'
          · exact Or.inl (by simpa using h')
          · exact Or.inr (by simpa [List.isEmpty_iff] using h')
  · rintro ⟨tc, htcmem, htcty, fc, hfcmem, hfcty, hcond⟩
    have hto : ∃ x, SIMPLIFIED_COMPONENTS.find? (fun c => c.type == toTypeId) = some x := by
      have : (SIMPLIFIED_COMPONENTS.find? (fun c => c.type == toTypeId)).isSome := by
        rw [List.find?_isSome]
        exact ⟨tc, htcmem, by simpa using htcty⟩
      exact Option.isSome_iff_exists.mp this
    obtain ⟨tc', hto⟩ := hto
    have htc' : tc' = tc := by
      apply hinj _ (List.mem_of_find?_eq_some hto) _ htcmem
      have := List.find?_some hto
      simp at this
      rw [this, htcty]
    have hfrom : ∃ x, SIMPLIFIED_COMPONENTS.find? (fun c => c.type == fromTypeId) = some x := by
      have : (SIMPLIFIED_COMPONENTS.find? (fun c => c.type == fromTypeId)).isSome := by
        rw [List.find?_isSome]
        exact ⟨fc, hfcmem, by simpa using hfcty⟩
      exact Option.isSome_iff_exists.mp this
    obtain ⟨fc', hfrom⟩ := hfrom
    have hfc' : fc' = fc := by
      apply hinj _ (List.mem_of_find?_eq_some hfrom) _ hfcmem
      have := List.find?_some hfrom
      simp at this
      rw [this, hfcty]
    rw [hto, hfrom, htc', hfc']
    rcases hcond with h | h
    · exact Bool.or_eq_true_iff.mpr (Or.inl (by simpa using h))
    · exact Bool.or_eq_true_iff.mpr (Or.inr (by simp [h]))

/-- Claim C2: `removeComponent id` keeps exactly the nodes whose id differs
from `id` and exactly the connections touching neither end at `id`, so no edge
touching the removed node remains. -/
theorem removeComponent_cascade (s : GraphState) (id : String) :
    (∀ comp, comp ∈ (removeComponent id s).components ↔
      comp ∈ s.components ∧ comp.id ≠ id) ∧
    (∀ conn, conn ∈ (removeComponent id s).connections ↔
      conn ∈ s.connections ∧ conn.«from» ≠ id ∧ conn.«to» ≠ id) := by
  constructor
  · intro comp
    simp [removeComponent, List.mem_filter]
  · intro conn
    simp [removeComponent, List.mem_filter]

/-- Claim C3, counterexample: in a graph state already holding two connections
with id `A-B` (loadable from a crafted file), calling `addConnection A B`
twice does not leave exactly one edge with id `A-B` — both calls are no-ops
and two such edges remain. -/
theorem addConnection_twice_counterexample :
    (addConnection "A" "B" (addConnection "A" "B" dupConnState)).connections.countP
        (fun conn => conn.id == "A-B") ≠ 1 := by decide

/-- Claim C3, amended: the second of two successive `addConnection` calls
always leaves the connection list unchanged, and whenever the starting state
holds at most one connection with id `fromId-toId` (true of every state the
store's own operations can build), two successive calls leave exactly one
edge with that id. -/
theorem addConnection_idempotent (s : GraphState) (fromId toId : String) :
    addConnection fromId toId (addConnection fromId toId s) =
      addConnection fromId toId s ∧
    (s.connections.countP (fun conn => conn.id == fromId ++ "-" ++ toId) ≤ 1 →
      (addConnection fromId toId (addConnection fromId toId s)).connections.countP
          (fun conn => conn.id == fromId ++ "-" ++ toId) = 1) := by
  by_cases h : s.connections.any (fun conn => conn.id == fromId ++ "-" ++ toId) = true
  · have hid : addConnection fromId toId s = s := addConnection_noop s fromId toId h
    refine ⟨by rw [hid]; exact hid, ?_⟩
    intro hle
    rw [hid, hid]
    have hpos : 0 < s.connections.countP (fun conn => conn.id == fromId ++ "-" ++ toId) := by
      rw [List.countP_pos_iff]
      simpa [List.any_eq_true] using h
    omega
  · rw [Bool.not_eq_true] at h
    have hstep := addConnection_append s fromId toId h
    have hany : (addConnection fromId toId s).connections.any
        (fun conn => conn.id == fromId ++ "-" ++ toId) = true := by
      rw [hstep, List.any_append]
      simp
    have hsecond := addConnection_noop (addConnection fromId toId s) fromId toId hany
    refine ⟨hsecond, fun _ => ?_⟩
    rw [hsecond, hstep, List.countP_append]
    have hzero : s.connections.countP (fun conn => conn.id == fromId ++ "-" ++ toId) = 0 := by
      rw [List.countP_eq_zero]
      intro conn hmem hconn
      exact absurd (List.any_eq_true.mpr ⟨conn, hmem, hconn⟩) (by rw [h]; simp)
    rw [hzero, List.countP_cons]
    simp

/-- Claim C3 witness: starting from the empty state, two `addConnection A B`
calls leave exactly one edge with id `A-B`. -/
theorem addConnection_idempotent_witness :
    emptyState.connections.countP (fun conn => conn.id == "A" ++ "-" ++ "B") ≤ 1 ∧
    (addConnection "A" "B" (addConnection "A" "B" emptyState)).connections.countP
        (fun conn => conn.id == "A" ++ "-" ++ "B") = 1 :=
  ⟨by decide, (addConnection_idempotent emptyState "A" "B").2 (by decide)⟩

/-- Claim C4: loading the document produced by saving a graph reproduces that
graph's component and connection lists exactly (ids, positions, configs,
from/to pairs, and array order), and raises no alert. -/
theorem saveLoad_roundTrip (s loadTime : GraphState) (savedAt : String) :
    handleLoadFromFile loadTime (.ok (handleSaveToFile s savedAt)) =
      ({ loadTime with components := s.components, connections := s.connections }, false) := by
  simp [handleSaveToFile, handleLoadFromFile]

/-- Claim C5: `getConnectionPoint` always returns the midpoint of one of the
four bounding-box edges (W = 188, H = 118) of the node it resolves (the source
node when `isSource`, otherwise the target node), and on the concrete scenario
`n1 = (100, 100)`, `n2 = (300, 100)` the source exit point is `(288, 159)` and
the target entry point is `(300, 159)`. -/
theorem getConnectionPoint_spec :
    (∀ (fromComp toComp : ComponentData) (isSource : Bool),
      getConnectionPoint fromComp toComp isSource =
          { x := ((if isSource then fromComp else toComp).position.x : ℝ) + COMPONENT_WIDTH,
            y := ((if isSource then fromComp else toComp).position.y : ℝ) +
              COMPONENT_HEIGHT / 2 } ∨
        getConnectionPoint fromComp toComp isSource =
          { x := ((if isSource then fromComp else toComp).position.x : ℝ) +
              COMPONENT_WIDTH / 2,
            y := ((if isSource then fromComp else toComp).position.y : ℝ) +
              COMPONENT_HEIGHT } ∨
        getConnectionPoint fromComp toComp isSource =
          { x := ((if isSource then fromComp else toComp).position.x : ℝ),
            y := ((if isSource then fromComp else toComp).position.y : ℝ) +
              COMPONENT_HEIGHT / 2 } ∨
        getConnectionPoint fromComp toComp isSource =
          { x := ((if isSource then fromComp else toComp).position.x : ℝ) +
              COMPONENT_WIDTH / 2,
            y := ((if isSource then fromComp else toComp).position.y : ℝ) }) ∧
    getConnectionPoint geoN1 geoN2 true = { x := 288, y := 159 } ∧
    getConnectionPoint geoN1 geoN2 false = { x := 300, y := 159 } := by
  refine ⟨?_, ?_, ?_⟩
  · intro fromComp toComp isSource
    cases isSource with
    | false =>
      simp only [getConnectionPoint, Bool.false_eq_true, if_false]
      split_ifs
      · exact Or.inl rfl
      · exact Or.inr (Or.inl rfl)
      · exact Or.inr (Or.inr (Or.inl rfl))
      · exact Or.inr (Or.inr (Or.inr rfl))
    | true =>
      simp only [getConnectionPoint, if_true]
      split_ifs
      · exact Or.inl rfl
      · exact Or.inr (Or.inl rfl)
      · exact Or.inr (Or.inr (Or.inl rfl))
      · exact Or.inr (Or.inr (Or.inr rfl))
  · norm_num [getConnectionPoint, geoN1, geoN2, atan2, jsMod, Real.arctan_zero,
      Int.floor_one, COMPONENT_WIDTH, COMPONENT_HEIGHT, Point.mk.injEq]
  · norm_num [getConnectionPoint, geoN1, geoN2, atan2, jsMod, Real.arctan_zero,
      Int.floor_one, COMPONENT_WIDTH, COMPONENT_HEIGHT, Point.mk.injEq]

/-- Claim C6: evaluating the shipped code at the claim's inputs shows the
divergence: the catalog has no `data-source` entry (its source entry is named
`data-input`), so `isValidConnection "data-source" "split"` is `false` where
the claim (and the repository's own test suite) expects `true`; under the
rename, `data-input → split` validates, and `split → data-input` also
validates because `data-input` has an empty `accepts` list. -/
theorem dataSource_rename_eval :
    isValidConnection "data-source" "split" = false ∧
    SIMPLIFIED_COMPONENTS.all (fun c => c.type != "data-source") = true ∧
    isValidConnection "data-input" "split" = true ∧
    isValidConnection "split" "data-input" = true := by decide

/-- Claim C7: evaluating `handleLoadWorkflow` on a five-block template whose
third block is unresolvable yields four nodes, but the chain does not connect
around the gap: because the loop indexes `newComponents` by the original
template index, it emits the self-loops `component-3 → component-3` and
`component-4 → component-4` instead of edges from the 2nd to the 3rd and from
the 3rd to the 4th created node, and no edge from `component-2` to
`component-3` exists. -/
theorem loadWorkflow_brokenChain_eval :
    handleLoadWorkflow blocksBroken 0 =
      some
        ([{ id := "component-1", type := "data-input",
            position := { x := 100, y := 100 }, label := "Data Source", config := none },
          { id := "component-2", type := "split",
            position := { x := 320, y := 100 }, label := "Train/Test Split", config := none },
          { id := "component-3", type := "predictions",
            position := { x := 760, y := 100 }, label := "Predictions", config := none },
          { id := "component-4", type := "evaluation",
            position := { x := 100, y := 240 }, label := "Evaluation", config := none }],
         [{ id := "component-1-component-2", «from» := "component-1", «to» := "component-2" },
          { id := "component-3-component-3", «from» := "component-3", «to» := "component-3" },
          { id := "component-4-component-4", «from» := "component-4", «to» := "component-4" }],
         4) ∧
    ((handleLoadWorkflow blocksBroken 0).getD ([], [], 0)).2.1.all
      (fun conn => !(conn.«from» == "component-2" && conn.«to» == "component-3")) = true := by
  decide

/-- Claim C8, counterexample: loading the shipped `XGBoost with Features`
workflow creates the edge `component-2 → component-3` between a
`features-input` node and a `split` node even though
`isValidConnection "features-input" "split"` is `false`, and loading a
template with an unresolvable middle block even creates a self-loop — so not
every edge that can exist passes the validator or has distinct endpoints. -/
theorem loadWorkflow_unvalidatedEdge_counterexample :
    (handleLoadWorkflow xgbBlocks 0).isSome = true ∧
    ({ id := "component-2-component-3", «from» := "component-2", «to» := "component-3" } :
        Connection) ∈ xgbLoaded.2.1 ∧
    (∃ c ∈ xgbLoaded.1, c.id = "component-2" ∧ c.type = "features-input") ∧
    (∃ c ∈ xgbLoaded.1, c.id = "component-3" ∧ c.type = "split") ∧
    isValidConnection "features-input" "split" = false ∧
    (∃ conn ∈ ((handleLoadWorkflow blocksBroken 0).getD ([], [], 0)).2.1,
      conn.«from» = conn.«to») := by decide

/-- Claim C8, amended: every connection added by the interactive connect flow
(`handleConnectionPointClick`) goes from a node that resolves in the canvas to
the clicked node, has distinct endpoints, and its endpoint component types
pass `isValidConnection` at creation time; the workflow loader's edges are not
so validated. -/
theorem handleConnectionPointClick_validated
    (connectingFrom : Option String) (component : ComponentData)
    (allComponents : List ComponentData) (s : GraphState) (conn : Connection)
    (hmem : conn ∈
      ((handleConnectionPointClick connectingFrom component allComponents s).1).connections)
    (hnew : conn ∉ s.connections) :
    ∃ f fromComp, connectingFrom = some f ∧
      allComponents.find? (fun c => c.id == f) = some fromComp ∧
      isValidConnection fromComp.type component.type = true ∧
      conn.«from» = f ∧ conn.«to» = component.id ∧ conn.«from» ≠ conn.«to» := by
  cases connectingFrom with
  | none =>
    simp only [handleConnectionPointClick] at hmem
    exact absurd hmem hnew
  | some f =>
    simp only [handleConnectionPointClick] at hmem
    by_cases hf : (f == component.id) = true
    · rw [if_pos hf] at hmem
      exact absurd hmem hnew
    · rw [if_neg hf] at hmem
      cases hfind : allComponents.find? (fun c => c.id == f) with
      | none =>
        rw [hfind] at hmem
        exact absurd hmem hnew
      | some fromComp =>
        rw [hfind] at hmem
        dsimp only at hmem
        by_cases hv : isValidConnection fromComp.type component.type = true
        · rw [if_pos hv] at hmem
          by_cases hany : s.connections.any
              (fun c2 => c2.id == f ++ "-" ++ component.id) = true
          · rw [addConnection_noop s f component.id hany] at hmem
            exact absurd hmem hnew
          · rw [Bool.not_eq_true] at hany
            rw [addConnection_append s f component.id hany, List.mem_append] at hmem
            rcases hmem with hmem | hmem
            · exact absurd hmem hnew
            · have hconn : conn =
                  { id := f ++ "-" ++ component.id, «from» := f, «to» := component.id } := by
                simpa using hmem
              subst hconn
              have hne : f ≠ component.id := by simpa using hf
              exact ⟨f, fromComp, rfl, hfind, hv, rfl, rfl, hne⟩
        · rw [if_neg hv] at hmem
          exact absurd hmem hnew

/-- Claim C8 witness: completing a click-connection from the placed
`data-input` node to the placed `split` node adds the validated, non-self-loop
edge `n1 → n2`. -/
theorem handleConnectionPointClick_validated_witness :
    (({ id := "n1-n2", «from» := "n1", «to» := "n2" } : Connection) ∈
      ((handleConnectionPointClick (some "n1") wn2 [wn1, wn2] emptyState).1).connections) ∧
    (({ id := "n1-n2", «from» := "n1", «to» := "n2" } : Connection) ∉
      emptyState.connections) ∧
    (∃ f fromComp, (some "n1" : Option String) = some f ∧
      [wn1, wn2].find? (fun c => c.id == f) = some fromComp ∧
      isValidConnection fromComp.type wn2.type = true ∧
      ({ id := "n1-n2", «from» := "n1", «to» := "n2" } : Connection).«from» = f ∧
      ({ id := "n1-n2", «from» := "n1", «to» := "n2" } : Connection).«to» = wn2.id ∧
      ({ id := "n1-n2", «from» := "n1", «to» := "n2" } : Connection).«from» ≠
        ({ id := "n1-n2", «from» := "n1", «to» := "n2" } : Connection).«to») :=
  ⟨by decide, by decide,
    handleConnectionPointClick_validated (some "n1") wn2 [wn1, wn2] emptyState
      { id := "n1-n2", «from» := "n1", «to» := "n2" } (by decide) (by decide)⟩

/-- Claim C9, counterexample: when the current graph is non-empty and a load
hits corrupt JSON, the handler alerts but the graph keeps its previous
non-empty contents — it does not fall back to an empty graph. -/
theorem loadFromFile_corrupt_counterexample :
    ((handleLoadFromFile nonEmptyState
        (.error "SyntaxError: Unexpected end of JSON input")).1).components ≠ [] ∧
    (handleLoadFromFile nonEmptyState
        (.error "SyntaxError: Unexpected end of JSON input")).2 = true := by decide

/-- Claim C9, amended: corrupt JSON never escapes the load paths — the
file-load handler surfaces an alert and leaves the graph state unchanged,
while the mount-time localStorage load keeps the initial empty graph without
alerting. -/
theorem loadFromFile_corrupt_spec (s : GraphState) (msg : String) :
    handleLoadFromFile s (.error msg) = (s, true) ∧
    mountLoadEffect (some (.error msg)) = emptyState :=
  ⟨rfl, rfl⟩

/-- Claim C10: every graph operation preserves pairwise-distinct connection
ids, and because the edge id is the bare concatenation `from ++ "-" ++ to`,
after adding the edge `(a, b-c)` the colliding edge `(a-b, c)` can never be
added — the later call is silently a no-op. -/
theorem graphOps_preserve_nodup (s : GraphState) (hs : connectionIdsNodup s) :
    (∀ component, connectionIdsNodup (addComponent component s)) ∧
    (∀ fromId toId, connectionIdsNodup (addConnection fromId toId s)) ∧
    (∀ id, connectionIdsNodup (removeComponent id s)) ∧
    (∀ id, connectionIdsNodup (removeConnection id s)) ∧
    connectionIdsNodup (clearCanvas s) ∧
    (∀ a b c : String,
      addConnection (a ++ "-" ++ b) c (addConnection a (b ++ "-" ++ c) s) =
        addConnection a (b ++ "-" ++ c) s) := by
  refine ⟨fun component => hs, ?_, ?_, ?_, ?_, ?_⟩
  · intro fromId toId
    by_cases h : s.connections.any (fun conn => conn.id == fromId ++ "-" ++ toId) = true
    · rw [addConnection_noop s fromId toId h]
      exact hs
    · rw [Bool.not_eq_true] at h
      unfold connectionIdsNodup
      rw [addConnection_append s fromId toId h, List.map_append]
      have hnotin : (fromId ++ "-" ++ toId) ∉ s.connections.map (fun conn => conn.id) := by
        intro hin
        rcases List.mem_map.mp hin with ⟨conn, hmem, heq⟩
        have := List.any_eq_false.mp h conn hmem
        simp only [beq_iff_eq] at this
        exact this heq
      refine List.Nodup.append hs (by simp) ?_
      intro x hx hx2
      simp only [List.map_cons, List.map_nil, List.mem_singleton] at hx2
      subst hx2
      exact hnotin hx
  · intro id
    exact List.Nodup.sublist
      (List.Sublist.map _ (List.filter_sublist _)) hs
  · intro id
    exact List.Nodup.sublist
      (List.Sublist.map _ (List.filter_sublist _)) hs
  · simp [connectionIdsNodup, clearCanvas]
  · intro a b c
    have hassoc : (a ++ "-" ++ b) ++ "-" ++ c = a ++ "-" ++ (b ++ "-" ++ c) := by
      simp [String.append_assoc]
    have hpresent : (addConnection a (b ++ "-" ++ c) s).connections.any
        (fun conn => conn.id == a ++ "-" ++ (b ++ "-" ++ c)) = true := by
      by_cases h1 : s.connections.any
          (fun conn => conn.id == a ++ "-" ++ (b ++ "-" ++ c)) = true
      · rw [addConnection_noop s _ _ h1]
        exact h1
      · rw [Bool.not_eq_true] at h1
        rw [addConnection_append s _ _ h1, List.any_append]
        simp
    have hany2 : (addConnection a (b ++ "-" ++ c) s).connections.any
        (fun conn => conn.id == (a ++ "-" ++ b) ++ "-" ++ c) = true := by
      rw [hassoc]
      exact hpresent
    exact addConnection_noop _ _ _ hany2

/-- Claim C10 witness: the empty state has distinct connection ids and keeps
them after `addConnection "a" "b-c"`. -/
theorem graphOps_preserve_nodup_witness :
    connectionIdsNodup emptyState ∧
    connectionIdsNodup (addConnection "a" "b-c" emptyState) :=
  ⟨by unfold connectionIdsNodup; decide,
    (graphOps_preserve_nodup emptyState
      (by unfold connectionIdsNodup; decide)).2.1 "a" "b-c"⟩

end Mammoth
